import Mathlib

/-!
Shallow embedding of `lambda/index.py` (the simplechat request-forwarding
handler).  Python values that the handler can place in the response
(`None` or a string) are modelled by `PyVal`; the two backend calls are
modelled as oracle functions from the exact request payload the handler
builds to an abstract result; uncaught Python exceptions are modelled by
`Except.error`.  The handler additionally returns a trace of the backend
requests it issued, the cached Bedrock client state, and its log lines.
-/

namespace SimpleChat

/-- A Python value as it can appear in the fields the handler reads or
returns: `None` or a string. -/
inductive PyVal where
  | pyNone
  | pyStr (s : String)
deriving DecidableEq, Repr

/-- Python truthiness restricted to `PyVal`: `None` and `""` are falsy. -/
def PyVal.truthy : PyVal → Bool
  | .pyNone => false
  | .pyStr s => s != ""

/-- One entry of `conversationHistory`: a dict `{role, content}`. -/
structure Turn where
  role : String
  content : PyVal
deriving DecidableEq, Repr

/-- Result of `json.loads(event["body"])` followed by the field reads:
either the body string is not valid JSON (`json.loads` raises), or it is a
JSON object with an optional `message` field and an optional
`conversationHistory` field. -/
inductive BodyVal where
  | invalid
  | obj (message : Option String) (conversationHistory : Option (List Turn))
deriving DecidableEq, Repr

/-- The inbound Lambda event: an optional
`requestContext.authorizer.claims` mapping and the request body. -/
structure Event where
  authorizer : Option (List (String × String))
  body : BodyVal
deriving DecidableEq, Repr

/-- The environment variables the module reads at import time. -/
structure Env where
  fastapiUrlVar : Option String
  modelIdVar : Option String
deriving DecidableEq, Repr

/-- Python `s.rstrip("/")`: drop every trailing `/` character. -/
def rstripSlash (s : String) : String :=
  String.mk ((s.data.reverse.dropWhile (fun c => c == '/')).reverse)

/-- `FASTAPI_URL = os.getenv("FASTAPI_URL", "").rstrip("/")`. -/
def FASTAPI_URL (env : Env) : String :=
  rstripSlash (env.fastapiUrlVar.getD "")

/-- `MODEL_ID = os.getenv("MODEL_ID", "us.amazon.nova-lite-v1:0")`. -/
def MODEL_ID (env : Env) : String :=
  env.modelIdVar.getD "us.amazon.nova-lite-v1:0"

/-- The character list of the literal regex prefix `arn:aws:lambda:`. -/
def arnPat : List Char := "arn:aws:lambda:".data

/-- One attempt of the regex `arn:aws:lambda:([^:]+):` at the current
position: the literal prefix must match, then a nonempty maximal run of
non-colon characters (the group), then a colon. -/
def arnMatchAt (l : List Char) : Option (List Char) :=
  if arnPat.isPrefixOf l then
    let rest := l.drop 15
    let reg := rest.takeWhile (fun c => c != ':')
    if reg ≠ [] ∧ reg.length < rest.length then some reg else none
  else none

/-- `re.search`: try the pattern at each position, leftmost match wins. -/
def arnSearch : List Char → Option (List Char)
  | [] => none
  | c :: cs =>
    match arnMatchAt (c :: cs) with
    | some r => some r
    | none => arnSearch cs

/-- `extract_region_from_arn`: regex-search the ARN for
`arn:aws:lambda:([^:]+):`; return the captured group, else `us-east-1`. -/
def extract_region_from_arn (arn : String) : String :=
  match arnSearch arn.data with
  | some r => String.mk r
  | none => "us-east-1"

/-- Whether `arn:aws:lambda:` occurs as a contiguous substring. -/
def containsArnPat : List Char → Bool
  | [] => false
  | c :: cs => arnPat.isPrefixOf (c :: cs) || containsArnPat cs

/-- Split a character list at every colon. -/
def splitColons : List Char → List (List Char)
  | [] => [[]]
  | c :: cs =>
    match splitColons cs with
    | [] => [[]]
    | h :: t => if c = ':' then [] :: h :: t else (c :: h) :: t

/-- The region selector as the spec words it (pattern
`arn:*:*:{region}:*:*:*`): at least seven colon-separated fields, the
first equal to `arn`, the region being the fourth.  Follows the spec's
words, not the code, for comparison against `extract_region_from_arn`. -/
def claimedArnRegion (s : String) : Option String :=
  let parts := splitColons s.data
  if 7 ≤ parts.length ∧ parts.headD [] = "arn".data then
    (parts.get? 3).map String.mk
  else none

/-- The JSON body the handler POSTs to the FastAPI endpoint. -/
structure PrimaryRequest where
  url : String
  prompt : String
  max_new_tokens : Nat
  do_sample : Bool
  temperature : ℚ
  top_p : ℚ
deriving DecidableEq, Repr

/-- The decoded JSON body of a 2xx FastAPI response, restricted to the two
fields the handler reads (`None` distinguishes present-null from absent). -/
structure PrimaryJson where
  generated_text : Option PyVal
  text : Option PyVal
deriving DecidableEq, Repr

/-- Outcome of `urllib.request.urlopen` on the primary request, plus the
decode of its body: the three exception types the handler catches
(`URLError`, `HTTPError` for non-2xx, `TimeoutError`), or a 2xx response
whose body is valid JSON, or a 2xx response whose body is not valid JSON
(in which case `json.loads` raises an uncaught `JSONDecodeError`). -/
inductive PrimaryResult where
  | urlError
  | httpError
  | timeoutError
  | okJson (body : PrimaryJson)
  | okNonJson
deriving DecidableEq, Repr

/-- The primary-call outcomes caught by the handler's `except` clause. -/
def PrimaryResult.isCaughtErr : PrimaryResult → Bool
  | .urlError => true
  | .httpError => true
  | .timeoutError => true
  | .okJson _ => false
  | .okNonJson => false

/-- One element of a Bedrock message's `content` list. -/
structure BedrockContent where
  text : String
deriving DecidableEq, Repr

/-- One Bedrock message: `{role, content}`. -/
structure BedrockMessage where
  role : String
  content : List BedrockContent
deriving DecidableEq, Repr

/-- The `inferenceConfig` dict of the Bedrock request payload. -/
structure InferenceConfig where
  maxTokens : Nat
  temperature : ℚ
  topP : ℚ
deriving DecidableEq, Repr

/-- What `bedrock_client.invoke_model` receives: the JSON request payload
(`messages` + `inferenceConfig`) together with the `modelId` argument. -/
structure BedrockRequest where
  messages : List BedrockMessage
  inferenceConfig : InferenceConfig
  modelId : String
deriving DecidableEq, Repr

/-- Outcome of the Bedrock call: any raised exception (nothing around the
call catches it), or a well-formed response whose
`output.message.content[0].text` is `reply`. -/
inductive SecondaryResult where
  | raise
  | ok (reply : String)
deriving DecidableEq, Repr

/-- The lazily created module-global `bedrock_client`. -/
structure BedrockClient where
  region : String
deriving DecidableEq, Repr

/-- Uncaught Python exceptions that can escape `lambda_handler`. -/
inductive PyErr where
  | jsonDecodeError
  | keyError
  | clientError
deriving DecidableEq, Repr

/-- The JSON-encoded body of the returned envelope. -/
structure RespBody where
  success : Bool
  response : PyVal
  conversationHistory : List Turn
  via : String
deriving DecidableEq, Repr

/-- The returned Lambda proxy response. -/
structure Response where
  statusCode : Nat
  headers : List (String × String)
  body : RespBody
deriving DecidableEq, Repr

/-- The fixed CORS headers of every returned response. -/
def corsHeaders : List (String × String) :=
  [("Content-Type", "application/json"),
   ("Access-Control-Allow-Origin", "*"),
   ("Access-Control-Allow-Headers",
     "Content-Type,X-Amz-Date,Authorization,X-Api-Key,X-Amz-Security-Token"),
   ("Access-Control-Allow-Methods", "OPTIONS,POST")]

/-- Result of one handler invocation: the returned envelope or the
uncaught exception, the primary requests actually POSTed, the Bedrock
requests actually invoked, the (possibly updated) cached client, and the
log lines printed. -/
structure HandlerOut where
  res : Except PyErr Response
  primaryReqs : List PrimaryRequest
  secondaryReqs : List BedrockRequest
  client : Option BedrockClient
  logs : List String
deriving Repr

/-- `dict.get` on the claims mapping. -/
def claimLookup (m : List (String × String)) (k : String) : Option String :=
  (m.find? (fun p => p.1 == k)).map Prod.snd

/-- Python `str(x)` for an optional string (`None` prints as "None"). -/
def pyShow : Option String → String
  | some s => s
  | none => "None"

/-- Python `a or b` on two optional strings, rendered for the log line. -/
def pyOrStr (a b : Option String) : String :=
  match a with
  | some s => if s != "" then s else pyShow b
  | none => pyShow b

/-- The JSON payload of the FastAPI POST:
`{prompt, max_new_tokens: 256, do_sample: true, temperature: 0.7, top_p: 0.9}`. -/
def primaryPayload (url message : String) : PrimaryRequest :=
  { url := url, prompt := message, max_new_tokens := 256, do_sample := true,
    temperature := 7/10, top_p := 9/10 }

/-- The Bedrock request:
`messages = [{role: "user", content: [{text: message}]}]`,
`inferenceConfig = {maxTokens: 512, temperature: 0.7, topP: 0.9}`. -/
def bedrockPayload (modelId message : String) : BedrockRequest :=
  { messages := [{ role := "user", content := [{ text := message }] }],
    inferenceConfig := { maxTokens := 512, temperature := 7/10, topP := 9/10 },
    modelId := modelId }

/-- `resp_json.get("generated_text") or resp_json.get("text", "")`. -/
def extractReply (j : PrimaryJson) : PyVal :=
  let g := j.generated_text.getD PyVal.pyNone
  if g.truthy then g else j.text.getD (PyVal.pyStr "")

/-- The handler body of `lambda/index.py`, with the two network calls
abstracted as oracles and the module-global `bedrock_client` threaded
through explicitly. -/
def lambda_handler (env : Env) (event : Event) (invoked_function_arn : String)
    (primaryCall : PrimaryRequest → PrimaryResult)
    (secondaryCall : BedrockRequest → SecondaryResult)
    (client0 : Option BedrockClient) : HandlerOut :=
  let logs0 := ["Received event"]
  let logs1 := match event.authorizer with
    | some claims =>
        logs0 ++ ["Authenticated user: " ++
          pyOrStr (claimLookup claims "email") (claimLookup claims "cognito:username")]
    | none => logs0
  match event.body with
  | .invalid =>
      { res := .error .jsonDecodeError, primaryReqs := [], secondaryReqs := [],
        client := client0, logs := logs1 }
  | .obj msgField histField =>
    match msgField with
    | none =>
        { res := .error .keyError, primaryReqs := [], secondaryReqs := [],
          client := client0, logs := logs1 }
    | some message =>
      let conversation_history := histField.getD []
      let logs2 := logs1 ++
        ["Incoming message: " ++ message, "FastAPI URL: " ++ FASTAPI_URL env]
      let finish : PyVal → Bool → List PrimaryRequest → List BedrockRequest →
          Option BedrockClient → List String → HandlerOut :=
        fun assistant used_fallback preqs sreqs client logs =>
          let history := conversation_history ++ [⟨"assistant", assistant⟩]
          { res := Except.ok
              { statusCode := 200, headers := corsHeaders,
                body := { success := true, response := assistant,
                          conversationHistory := history,
                          via := if used_fallback then "bedrock" else "fastapi" } },
            primaryReqs := preqs, secondaryReqs := sreqs, client := client,
            logs := logs ++
              [if used_fallback then "Returned by Bedrock" else "Returned by FastAPI"] }
      let fallback : List PrimaryRequest → List String → HandlerOut :=
        fun preqs logs =>
          let cl := match client0 with
            | some c => (some c, logs)
            | none =>
                let region := extract_region_from_arn invoked_function_arn
                (some ⟨region⟩,
                  logs ++ ["Initialised Bedrock client in region: " ++ region])
          let breq := bedrockPayload (MODEL_ID env) message
          let logs4 := cl.2 ++ ["Calling Bedrock model: " ++ MODEL_ID env]
          match secondaryCall breq with
          | .raise =>
              { res := .error .clientError, primaryReqs := preqs,
                secondaryReqs := [breq], client := cl.1, logs := logs4 }
          | .ok reply => finish (PyVal.pyStr reply) true preqs [breq] cl.1 logs4
      if FASTAPI_URL env = "" then
        fallback [] logs2
      else
        let preq := primaryPayload (FASTAPI_URL env) message
        match primaryCall preq with
        | .urlError => fallback [preq] (logs2 ++ ["FastAPI NG, fallback"])
        | .httpError => fallback [preq] (logs2 ++ ["FastAPI NG, fallback"])
        | .timeoutError => fallback [preq] (logs2 ++ ["FastAPI NG, fallback"])
        | .okJson j =>
            finish (extractReply j) false [preq] [] client0 (logs2 ++ ["FastAPI OK"])
        | .okNonJson =>
            { res := .error .jsonDecodeError, primaryReqs := [preq],
              secondaryReqs := [], client := client0, logs := logs2 }

/-- The body of the returned envelope, when the invocation returned one. -/
def respOf (o : HandlerOut) : Option RespBody :=
  match o.res with
  | .ok r => some r.body
  | .error _ => none

/-- The input conversation history of an event
(`body.get("conversationHistory", [])`; empty when the body is invalid). -/
def inputHistory : Event → List Turn
  | ⟨_, .obj _ h⟩ => h.getD []
  | ⟨_, .invalid⟩ => []

/-!
Helper lemmas, then one theorem per claim.  Throughout, the spec's
abstract vocabulary maps to the code as follows: the "primary backend" is
the FastAPI endpoint and the "secondary backend" is Bedrock, and the
envelope's source tag (`source == "primary" | "secondary"` in the spec)
is the code's `via` field with values `"fastapi" | "bedrock"`.
-/

theorem isPrefixOf_append_self (l t : List Char) : l.isPrefixOf (l ++ t) = true := by
  induction l with
  | nil => simp [List.isPrefixOf]
  | cons a as ih => simp [List.isPrefixOf, ih]

theorem drop_len_append (l t : List Char) : (l ++ t).drop l.length = t := by
  induction l with
  | nil => rfl
  | cons a as ih => simp [ih]

theorem takeWhile_append_stop (p : Char → Bool) (l : List Char) (y : Char) (t : List Char)
    (h : ∀ c ∈ l, p c = true) (hy : p y = false) :
    (l ++ y :: t).takeWhile p = l := by
  induction l with
  | nil => simp [List.takeWhile_cons, hy]
  | cons a as ih =>
      have ha : p a = true := h a (by simp)
      simp [List.takeWhile_cons, ha]
      exact ih (fun c hc => h c (by simp [hc]))

theorem arnMatchAt_exact (reg t : List Char) (hne : reg ≠ [])
    (hcol : ∀ c ∈ reg, (c != ':') = true) :
    arnMatchAt (arnPat ++ (reg ++ ':' :: t)) = some reg := by
  have hdrop : (arnPat ++ (reg ++ ':' :: t)).drop 15 = reg ++ ':' :: t :=
    drop_len_append arnPat (reg ++ ':' :: t)
  have htw : (reg ++ ':' :: t).takeWhile (fun c => c != ':') = reg :=
    takeWhile_append_stop _ reg ':' t hcol (by simp)
  simp only [arnMatchAt, isPrefixOf_append_self, if_true, hdrop, htw]
  rw [if_pos]
  exact ⟨hne, by simp⟩

theorem arnSearch_of_arnMatchAt (l : List Char) (r : List Char)
    (h : arnMatchAt l = some r) : arnSearch l = some r := by
  cases l with
  | nil => simp [arnMatchAt, arnPat, List.isPrefixOf] at h
  | cons c cs => simp [arnSearch, h]

theorem arnSearch_some_contains (l : List Char) (r : List Char)
    (h : arnSearch l = some r) : containsArnPat l = true := by
  induction l with
  | nil => simp [arnSearch] at h
  | cons c cs ih =>
      rw [arnSearch] at h
      cases hm : arnMatchAt (c :: cs) with
      | some r2 =>
          have : arnPat.isPrefixOf (c :: cs) = true := by
            by_contra hp
            rw [Bool.not_eq_true] at hp
            simp [arnMatchAt, hp] at hm
          simp [containsArnPat, this]
      | none =>
          rw [hm] at h
          simp [containsArnPat, ih h]

theorem string_data_append (s t : String) : (s ++ t).data = s.data ++ t.data := by
  cases s; cases t; rfl

theorem primary_ok_run (env : Env) (auth : Option (List (String × String)))
    (message : String) (hist? : Option (List Turn)) (arn : String)
    (primaryCall : PrimaryRequest → PrimaryResult)
    (secondaryCall : BedrockRequest → SecondaryResult)
    (client0 : Option BedrockClient) (j : PrimaryJson)
    (hurl : FASTAPI_URL env ≠ "")
    (hok : primaryCall (primaryPayload (FASTAPI_URL env) message) = .okJson j) :
    (lambda_handler env ⟨auth, .obj (some message) hist?⟩ arn primaryCall secondaryCall client0).res
        = .ok ⟨200, corsHeaders,
            ⟨true, extractReply j, hist?.getD [] ++ [⟨"assistant", extractReply j⟩], "fastapi"⟩⟩
    ∧ (lambda_handler env ⟨auth, .obj (some message) hist?⟩ arn primaryCall secondaryCall client0).primaryReqs
        = [primaryPayload (FASTAPI_URL env) message]
    ∧ (lambda_handler env ⟨auth, .obj (some message) hist?⟩ arn primaryCall secondaryCall client0).secondaryReqs
        = [] := by
  simp [lambda_handler, hurl, hok]

theorem fallback_run (env : Env) (auth : Option (List (String × String)))
    (message : String) (hist? : Option (List Turn)) (arn : String)
    (primaryCall : PrimaryRequest → PrimaryResult)
    (secondaryCall : BedrockRequest → SecondaryResult)
    (client0 : Option BedrockClient)
    (hpath : FASTAPI_URL env = "" ∨
      (primaryCall (primaryPayload (FASTAPI_URL env) message)).isCaughtErr = true) :
    (lambda_handler env ⟨auth, .obj (some message) hist?⟩ arn primaryCall secondaryCall client0).secondaryReqs
        = [bedrockPayload (MODEL_ID env) message]
    ∧ (lambda_handler env ⟨auth, .obj (some message) hist?⟩ arn primaryCall secondaryCall client0).primaryReqs
        = (if FASTAPI_URL env = "" then [] else [primaryPayload (FASTAPI_URL env) message])
    ∧ (secondaryCall (bedrockPayload (MODEL_ID env) message) = .raise →
        (lambda_handler env ⟨auth, .obj (some message) hist?⟩ arn primaryCall secondaryCall client0).res
          = .error .clientError)
    ∧ (∀ r, secondaryCall (bedrockPayload (MODEL_ID env) message) = .ok r →
        (lambda_handler env ⟨auth, .obj (some message) hist?⟩ arn primaryCall secondaryCall client0).res
          = .ok ⟨200, corsHeaders,
              ⟨true, .pyStr r, hist?.getD [] ++ [⟨"assistant", .pyStr r⟩], "bedrock"⟩⟩) := by
  rcases hpath with hurl | herr
  · cases hsec : secondaryCall (bedrockPayload (MODEL_ID env) message) with
    | raise => cases client0 <;> simp [lambda_handler, hurl, hsec]
    | ok r => cases client0 <;> simp [lambda_handler, hurl, hsec]
  · by_cases hurl : FASTAPI_URL env = ""
    · cases hsec : secondaryCall (bedrockPayload (MODEL_ID env) message) with
      | raise => cases client0 <;> simp [lambda_handler, hurl, hsec]
      | ok r => cases client0 <;> simp [lambda_handler, hurl, hsec]
    · cases hp : primaryCall (primaryPayload (FASTAPI_URL env) message) <;>
        rw [hp] at herr <;> simp [PrimaryResult.isCaughtErr] at herr <;>
        cases hsec : secondaryCall (bedrockPayload (MODEL_ID env) message) <;>
        cases client0 <;> simp [lambda_handler, hurl, hp, hsec]

theorem handler_auth_irrelevant (env : Env) (auth : Option (List (String × String)))
    (bodyv : BodyVal) (arn : String)
    (primaryCall : PrimaryRequest → PrimaryResult)
    (secondaryCall : BedrockRequest → SecondaryResult)
    (client0 : Option BedrockClient) :
    (lambda_handler env ⟨auth, bodyv⟩ arn primaryCall secondaryCall client0).res
        = (lambda_handler env ⟨none, bodyv⟩ arn primaryCall secondaryCall client0).res
    ∧ (lambda_handler env ⟨auth, bodyv⟩ arn primaryCall secondaryCall client0).primaryReqs
        = (lambda_handler env ⟨none, bodyv⟩ arn primaryCall secondaryCall client0).primaryReqs
    ∧ (lambda_handler env ⟨auth, bodyv⟩ arn primaryCall secondaryCall client0).secondaryReqs
        = (lambda_handler env ⟨none, bodyv⟩ arn primaryCall secondaryCall client0).secondaryReqs
    ∧ (lambda_handler env ⟨auth, bodyv⟩ arn primaryCall secondaryCall client0).client
        = (lambda_handler env ⟨none, bodyv⟩ arn primaryCall secondaryCall client0).client := by
  cases bodyv with
  | invalid => simp [lambda_handler]
  | obj msg? hist? =>
    cases msg? with
    | none => simp [lambda_handler]
    | some message =>
      by_cases hurl : FASTAPI_URL env = ""
      · cases hsec : secondaryCall (bedrockPayload (MODEL_ID env) message) <;>
          cases client0 <;> simp [lambda_handler, hurl, hsec]
      · cases hp : primaryCall (primaryPayload (FASTAPI_URL env) message) <;>
          cases hsec : secondaryCall (bedrockPayload (MODEL_ID env) message) <;>
          cases client0 <;> simp [lambda_handler, hurl, hp, hsec]

/-- C1: for every valid request with the primary backend configured
(`FASTAPI_URL` nonempty) but failing with one of the caught errors
(connection/DNS failure or timeout, i.e. `URLError`/`TimeoutError`, or
non-2xx status, i.e. `HTTPError`), the handler POSTs exactly one primary
request, silently falls back to Bedrock, invokes it with exactly the
message list `[{role: "user", content: [{text: message}]}]` and inference
config `{maxTokens: 512, temperature: 0.7, topP: 0.9}`, and (when the
Bedrock call returns a reply) returns a 200 success envelope whose source
tag `via` is `"bedrock"` (the spec's `source == "secondary"`). -/
theorem C1_primary_failure_falls_back (env : Env) (auth : Option (List (String × String)))
    (message : String) (hist? : Option (List Turn)) (arn : String)
    (primaryCall : PrimaryRequest → PrimaryResult)
    (secondaryCall : BedrockRequest → SecondaryResult)
    (client0 : Option BedrockClient) (r : String)
    (hurl : FASTAPI_URL env ≠ "")
    (hfail : (primaryCall (primaryPayload (FASTAPI_URL env) message)).isCaughtErr = true)
    (hsec : secondaryCall (bedrockPayload (MODEL_ID env) message) = .ok r) :
    (lambda_handler env ⟨auth, .obj (some message) hist?⟩ arn primaryCall secondaryCall client0).primaryReqs
        = [primaryPayload (FASTAPI_URL env) message]
    ∧ (lambda_handler env ⟨auth, .obj (some message) hist?⟩ arn primaryCall secondaryCall client0).secondaryReqs
        = [bedrockPayload (MODEL_ID env) message]
    ∧ (bedrockPayload (MODEL_ID env) message).messages = [⟨"user", [⟨message⟩]⟩]
    ∧ (bedrockPayload (MODEL_ID env) message).inferenceConfig = ⟨512, 7/10, 9/10⟩
    ∧ (lambda_handler env ⟨auth, .obj (some message) hist?⟩ arn primaryCall secondaryCall client0).res
        = .ok ⟨200, corsHeaders,
            ⟨true, .pyStr r, hist?.getD [] ++ [⟨"assistant", .pyStr r⟩], "bedrock"⟩⟩ := by
  obtain ⟨h1, h2, _, h4⟩ := fallback_run env auth message hist? arn primaryCall secondaryCall client0
    (Or.inr hfail)
  rw [if_neg hurl] at h2
  exact ⟨h2, h1, rfl, rfl, h4 r hsec⟩

/-- C1 witness: a concrete run with the primary configured and failing
with `URLError` and Bedrock answering `"yo"`. -/
theorem C1_witness :
    (lambda_handler ⟨some "http://x", none⟩ ⟨none, .obj (some "hi") none⟩ "a"
        (fun _ => .urlError) (fun _ => .ok "yo") none).primaryReqs
        = [primaryPayload (FASTAPI_URL ⟨some "http://x", none⟩) "hi"]
    ∧ (lambda_handler ⟨some "http://x", none⟩ ⟨none, .obj (some "hi") none⟩ "a"
        (fun _ => .urlError) (fun _ => .ok "yo") none).secondaryReqs
        = [bedrockPayload (MODEL_ID ⟨some "http://x", none⟩) "hi"]
    ∧ (bedrockPayload (MODEL_ID ⟨some "http://x", none⟩) "hi").messages = [⟨"user", [⟨"hi"⟩]⟩]
    ∧ (bedrockPayload (MODEL_ID ⟨some "http://x", none⟩) "hi").inferenceConfig = ⟨512, 7/10, 9/10⟩
    ∧ (lambda_handler ⟨some "http://x", none⟩ ⟨none, .obj (some "hi") none⟩ "a"
        (fun _ => .urlError) (fun _ => .ok "yo") none).res
        = .ok ⟨200, corsHeaders, ⟨true, .pyStr "yo", [⟨"assistant", .pyStr "yo"⟩], "bedrock"⟩⟩ :=
  C1_primary_failure_falls_back ⟨some "http://x", none⟩ none "hi" none "a"
    (fun _ => .urlError) (fun _ => .ok "yo") none "yo" (by decide) (by decide) rfl

/-- C2 counterexample: with the primary healthy and returning the JSON
body `{generated_text: "", text: "x"}`, the claim says the reply equals
the `generated_text` field (present, `""`), but the code's truthiness
test (`resp_json.get("generated_text") or ...`) skips the empty string
and the handler replies `"x"`. -/
theorem C2_counterexample :
    (respOf (lambda_handler ⟨some "http://x", none⟩ ⟨none, .obj (some "hi") (some [])⟩ "a"
        (fun _ => .okJson ⟨some (.pyStr ""), some (.pyStr "x")⟩) (fun _ => .raise) none)).map
          RespBody.response
      = some (PyVal.pyStr "x")
    ∧ PyVal.pyStr "x" ≠ PyVal.pyStr "" := by
  refine ⟨by decide, by decide⟩

/-- C2 (amended): for every valid request with the primary backend
configured and healthy (2xx with a JSON body `j`), the handler returns
HTTP 200 with envelope `{success: true, response, conversationHistory
with the assistant turn appended, via: "fastapi"}` (the spec's
`source == "primary"`), where the reply is `generated_text` when that
field is present and truthy (non-null, non-empty), else the `text` field
when present, else the empty string. -/
theorem C2_primary_healthy (env : Env) (auth : Option (List (String × String)))
    (message : String) (hist? : Option (List Turn)) (arn : String)
    (primaryCall : PrimaryRequest → PrimaryResult)
    (secondaryCall : BedrockRequest → SecondaryResult)
    (client0 : Option BedrockClient) (j : PrimaryJson)
    (hurl : FASTAPI_URL env ≠ "")
    (hok : primaryCall (primaryPayload (FASTAPI_URL env) message) = .okJson j) :
    (lambda_handler env ⟨auth, .obj (some message) hist?⟩ arn primaryCall secondaryCall client0).res
        = .ok ⟨200, corsHeaders,
            ⟨true, extractReply j, hist?.getD [] ++ [⟨"assistant", extractReply j⟩], "fastapi"⟩⟩
    ∧ extractReply j = (if (j.generated_text.getD .pyNone).truthy
        then j.generated_text.getD .pyNone else j.text.getD (.pyStr "")) := by
  obtain ⟨h1, _, _⟩ := primary_ok_run env auth message hist? arn primaryCall secondaryCall
    client0 j hurl hok
  exact ⟨h1, rfl⟩

/-- C2 witness: a concrete healthy-primary run returning
`{generated_text: "hello"}`. -/
theorem C2_witness :
    (lambda_handler ⟨some "http://x", none⟩ ⟨none, .obj (some "hi") none⟩ "a"
        (fun _ => .okJson ⟨some (.pyStr "hello"), none⟩) (fun _ => .raise) none).res
        = .ok ⟨200, corsHeaders,
            ⟨true, extractReply ⟨some (.pyStr "hello"), none⟩,
              [⟨"assistant", extractReply ⟨some (.pyStr "hello"), none⟩⟩], "fastapi"⟩⟩
    ∧ extractReply ⟨some (.pyStr "hello"), none⟩
        = (if ((⟨some (.pyStr "hello"), none⟩ : PrimaryJson).generated_text.getD .pyNone).truthy
            then (⟨some (.pyStr "hello"), none⟩ : PrimaryJson).generated_text.getD .pyNone
            else (⟨some (.pyStr "hello"), none⟩ : PrimaryJson).text.getD (.pyStr "")) :=
  C2_primary_healthy ⟨some "http://x", none⟩ none "hi" none "a"
    (fun _ => .okJson ⟨some (.pyStr "hello"), none⟩) (fun _ => .raise) none
    ⟨some (.pyStr "hello"), none⟩ (by decide) rfl

/-- C3 counterexample: a concrete invocation whose body is not valid JSON
terminates with an uncaught `JSONDecodeError` and produces no response
envelope at all, contradicting the claimed `success: false` / HTTP 500
response and the claimed no-crash guarantee. -/
theorem C3_counterexample :
    (lambda_handler ⟨none, none⟩ ⟨none, .invalid⟩ "a" (fun _ => .urlError) (fun _ => .ok "yo") none).res
      = .error .jsonDecodeError
    ∧ respOf (lambda_handler ⟨none, none⟩ ⟨none, .invalid⟩ "a"
        (fun _ => .urlError) (fun _ => .ok "yo") none) = none := by
  refine ⟨rfl, by decide⟩

/-- C3 (amended): for every invocation whose body is not valid JSON the
handler raises an uncaught `JSONDecodeError`, and for every invocation
whose JSON body lacks the `message` field it raises an uncaught
`KeyError`; in both cases the invocation terminates without returning any
response envelope (there is no surrounding try/except in the code). -/
theorem C3_malformed_body_uncaught (env : Env) (auth : Option (List (String × String)))
    (hist? : Option (List Turn)) (arn : String)
    (primaryCall : PrimaryRequest → PrimaryResult)
    (secondaryCall : BedrockRequest → SecondaryResult)
    (client0 : Option BedrockClient) :
    (lambda_handler env ⟨auth, .invalid⟩ arn primaryCall secondaryCall client0).res
        = .error .jsonDecodeError
    ∧ (lambda_handler env ⟨auth, .obj none hist?⟩ arn primaryCall secondaryCall client0).res
        = .error .keyError := by
  constructor <;> simp [lambda_handler]

/-- C4 counterexample: a concrete invocation in which the Bedrock call
raises terminates with the uncaught exception and produces no response
envelope, contradicting the claimed well-formed 500-class failure
response. -/
theorem C4_counterexample :
    (lambda_handler ⟨none, none⟩ ⟨none, .obj (some "hi") (some [])⟩ "a"
        (fun _ => .urlError) (fun _ => .raise) none).res = .error .clientError
    ∧ respOf (lambda_handler ⟨none, none⟩ ⟨none, .obj (some "hi") (some [])⟩ "a"
        (fun _ => .urlError) (fun _ => .raise) none) = none := by
  refine ⟨rfl, by decide⟩

/-- C4 (amended): for every valid request that reaches the fallback tier
(primary unconfigured, or primary failing with a caught error), if the
Bedrock call raises then the exception propagates uncaught — the
invocation terminates without a response envelope — and exactly one
secondary request was attempted (no tertiary fallback exists). -/
theorem C4_secondary_error_uncaught (env : Env) (auth : Option (List (String × String)))
    (message : String) (hist? : Option (List Turn)) (arn : String)
    (primaryCall : PrimaryRequest → PrimaryResult)
    (secondaryCall : BedrockRequest → SecondaryResult)
    (client0 : Option BedrockClient)
    (hpath : FASTAPI_URL env = "" ∨
      (primaryCall (primaryPayload (FASTAPI_URL env) message)).isCaughtErr = true)
    (hsec : secondaryCall (bedrockPayload (MODEL_ID env) message) = .raise) :
    (lambda_handler env ⟨auth, .obj (some message) hist?⟩ arn primaryCall secondaryCall client0).res
        = .error .clientError
    ∧ (lambda_handler env ⟨auth, .obj (some message) hist?⟩ arn primaryCall secondaryCall client0).secondaryReqs
        = [bedrockPayload (MODEL_ID env) message] := by
  obtain ⟨h1, _, h3, _⟩ := fallback_run env auth message hist? arn primaryCall secondaryCall
    client0 hpath
  exact ⟨h3 hsec, h1⟩

/-- C4 witness: a concrete run with no primary configured and the Bedrock
call raising. -/
theorem C4_witness :
    (lambda_handler ⟨none, none⟩ ⟨none, .obj (some "hi") none⟩ "a"
        (fun _ => .urlError) (fun _ => .raise) none).res = .error .clientError
    ∧ (lambda_handler ⟨none, none⟩ ⟨none, .obj (some "hi") none⟩ "a"
        (fun _ => .urlError) (fun _ => .raise) none).secondaryReqs
        = [bedrockPayload (MODEL_ID ⟨none, none⟩) "hi"] :=
  C4_secondary_error_uncaught ⟨none, none⟩ none "hi" none "a"
    (fun _ => .urlError) (fun _ => .raise) none (Or.inl (by decide)) rfl

/-- C5: for every valid request with no primary backend configured
(`FASTAPI_URL` unset or the empty string), the handler makes no HTTP
request to any primary endpoint and invokes Bedrock directly with the
single secondary payload. -/
theorem C5_no_primary_direct_secondary (env : Env) (auth : Option (List (String × String)))
    (message : String) (hist? : Option (List Turn)) (arn : String)
    (primaryCall : PrimaryRequest → PrimaryResult)
    (secondaryCall : BedrockRequest → SecondaryResult)
    (client0 : Option BedrockClient)
    (hunset : env.fastapiUrlVar = none ∨ env.fastapiUrlVar = some "") :
    (lambda_handler env ⟨auth, .obj (some message) hist?⟩ arn primaryCall secondaryCall client0).primaryReqs
        = []
    ∧ (lambda_handler env ⟨auth, .obj (some message) hist?⟩ arn primaryCall secondaryCall client0).secondaryReqs
        = [bedrockPayload (MODEL_ID env) message] := by
  have hurl : FASTAPI_URL env = "" := by
    rcases hunset with h | h <;> simp [FASTAPI_URL, h, rstripSlash]
  obtain ⟨h1, h2, _, _⟩ := fallback_run env auth message hist? arn primaryCall secondaryCall
    client0 (Or.inl hurl)
  rw [if_pos hurl] at h2
  exact ⟨h2, h1⟩

/-- C5 witness: a concrete run with `FASTAPI_URL` unset. -/
theorem C5_witness :
    (lambda_handler ⟨none, none⟩ ⟨none, .obj (some "hi") none⟩ "a"
        (fun _ => .urlError) (fun _ => .ok "yo") none).primaryReqs = []
    ∧ (lambda_handler ⟨none, none⟩ ⟨none, .obj (some "hi") none⟩ "a"
        (fun _ => .urlError) (fun _ => .ok "yo") none).secondaryReqs
        = [bedrockPayload (MODEL_ID ⟨none, none⟩) "hi"] :=
  C5_no_primary_direct_secondary ⟨none, none⟩ none "hi" none "a"
    (fun _ => .urlError) (fun _ => .ok "yo") none (Or.inl rfl)

/-- C6: every invocation that returns a success envelope returns a
`conversationHistory` equal to the input history with exactly one entry
`{role: "assistant", content: reply}` appended at the end, where `reply`
is the returned `response` text; in particular its length is the input
length plus one, and the original entries are unchanged and in order. -/
theorem C6_history_roundtrip (env : Env) (event : Event) (arn : String)
    (primaryCall : PrimaryRequest → PrimaryResult)
    (secondaryCall : BedrockRequest → SecondaryResult)
    (client0 : Option BedrockClient) (resp : Response)
    (hok : (lambda_handler env event arn primaryCall secondaryCall client0).res = .ok resp) :
    resp.body.conversationHistory
        = inputHistory event ++ [⟨"assistant", resp.body.response⟩]
    ∧ resp.body.conversationHistory.length = (inputHistory event).length + 1 := by
  obtain ⟨auth, bodyv⟩ := event
  cases bodyv with
  | invalid => simp [lambda_handler] at hok
  | obj msg? hist? =>
    cases msg? with
    | none => simp [lambda_handler] at hok
    | some message =>
      by_cases hurl : FASTAPI_URL env = ""
      · cases hsec : secondaryCall (bedrockPayload (MODEL_ID env) message) with
        | raise => cases client0 <;> simp [lambda_handler, hurl, hsec] at hok
        | ok r =>
            cases client0 <;> simp [lambda_handler, hurl, hsec] at hok <;>
              (subst hok; simp [inputHistory])
      · cases hp : primaryCall (primaryPayload (FASTAPI_URL env) message) with
        | okJson j =>
            simp [lambda_handler, hurl, hp] at hok
            subst hok
            simp [inputHistory]
        | okNonJson => simp [lambda_handler, hurl, hp] at hok
        | urlError =>
            cases hsec : secondaryCall (bedrockPayload (MODEL_ID env) message) with
            | raise => cases client0 <;> simp [lambda_handler, hurl, hp, hsec] at hok
            | ok r =>
                cases client0 <;> simp [lambda_handler, hurl, hp, hsec] at hok <;>
                  (subst hok; simp [inputHistory])
        | httpError =>
            cases hsec : secondaryCall (bedrockPayload (MODEL_ID env) message) with
            | raise => cases client0 <;> simp [lambda_handler, hurl, hp, hsec] at hok
            | ok r =>
                cases client0 <;> simp [lambda_handler, hurl, hp, hsec] at hok <;>
                  (subst hok; simp [inputHistory])
        | timeoutError =>
            cases hsec : secondaryCall (bedrockPayload (MODEL_ID env) message) with
            | raise => cases client0 <;> simp [lambda_handler, hurl, hp, hsec] at hok
            | ok r =>
                cases client0 <;> simp [lambda_handler, hurl, hp, hsec] at hok <;>
                  (subst hok; simp [inputHistory])

/-- C6 witness: a concrete run with one prior history turn; the output
history is the input turn followed by the assistant turn. -/
theorem C6_witness :
    ([⟨"user", .pyStr "q"⟩, ⟨"assistant", .pyStr "hello"⟩] : List Turn)
        = inputHistory ⟨none, .obj (some "hi") (some [⟨"user", .pyStr "q"⟩])⟩
            ++ [⟨"assistant",
              (⟨true, .pyStr "hello",
                [⟨"user", .pyStr "q"⟩, ⟨"assistant", .pyStr "hello"⟩], "fastapi"⟩ : RespBody).response⟩]
    ∧ ([⟨"user", .pyStr "q"⟩, ⟨"assistant", .pyStr "hello"⟩] : List Turn).length
        = (inputHistory ⟨none, .obj (some "hi") (some [⟨"user", .pyStr "q"⟩])⟩).length + 1 :=
  C6_history_roundtrip ⟨some "http://x", none⟩
    ⟨none, .obj (some "hi") (some [⟨"user", .pyStr "q"⟩])⟩ "a"
    (fun _ => .okJson ⟨some (.pyStr "hello"), none⟩) (fun _ => .raise) none
    ⟨200, corsHeaders,
      ⟨true, .pyStr "hello", [⟨"user", .pyStr "q"⟩, ⟨"assistant", .pyStr "hello"⟩], "fastapi"⟩⟩
    rfl

/-- C7 counterexample: `arn:aws:s3:eu-west-1:123:bucket:b` matches the
claimed pattern `arn:*:*:{region}:*:*:*` with region `eu-west-1`
(witnessed by the spec-side selector `claimedArnRegion`), yet the code's
regex requires the literal service prefix `arn:aws:lambda:` and so
returns the default `us-east-1`. -/
theorem C7_counterexample :
    claimedArnRegion "arn:aws:s3:eu-west-1:123:bucket:b" = some "eu-west-1"
    ∧ extract_region_from_arn "arn:aws:s3:eu-west-1:123:bucket:b" = "us-east-1"
    ∧ ("us-east-1" : String) ≠ "eu-west-1" := by
  refine ⟨by decide, by decide, by decide⟩

/-- C7 (amended): the code's pattern is `arn:aws:lambda:([^:]+):`, not
the spec's `arn:*:*:{region}:*:*:*`.  For every string of the form
`arn:aws:lambda:{region}:{rest}` with `region` nonempty and colon-free,
`extract_region_from_arn` returns `region` (so in particular
`arn:aws:lambda:eu-west-1:123:function:f` yields `eu-west-1`); for every
string that does not contain the substring `arn:aws:lambda:` it returns
the default `us-east-1`. -/
theorem C7_region_extraction :
    (∀ (region rest : String), region ≠ "" → (∀ c ∈ region.data, (c != ':') = true) →
      extract_region_from_arn ("arn:aws:lambda:" ++ region ++ ":" ++ rest) = region)
    ∧ (∀ s : String, containsArnPat s.data = false →
      extract_region_from_arn s = "us-east-1") := by
  constructor
  · intro region rest hne hcol
    have hdata : ("arn:aws:lambda:" ++ region ++ ":" ++ rest).data
        = arnPat ++ (region.data ++ ':' :: rest.data) := by
      simp [string_data_append, arnPat]
    have hne' : region.data ≠ [] := by
      intro h
      exact hne (by cases region with | mk d => simp at h; simp [h])
    have hm : arnMatchAt (arnPat ++ (region.data ++ ':' :: rest.data)) = some region.data :=
      arnMatchAt_exact region.data rest.data hne' hcol
    have hs : arnSearch ("arn:aws:lambda:" ++ region ++ ":" ++ rest).data = some region.data := by
      rw [hdata]
      exact arnSearch_of_arnMatchAt _ _ hm
    rw [extract_region_from_arn, hs]
  · intro s hns
    rw [extract_region_from_arn]
    cases hsr : arnSearch s.data with
    | none => rfl
    | some r =>
        have := arnSearch_some_contains s.data r hsr
        rw [this] at hns
        exact absurd hns (by simp)

/-- C7 witness: the spec's own example ARN yields `eu-west-1`, and a
string without the `arn:aws:lambda:` substring yields the default. -/
theorem C7_witness :
    extract_region_from_arn ("arn:aws:lambda:" ++ "eu-west-1" ++ ":" ++ "123:function:f")
        = "eu-west-1"
    ∧ extract_region_from_arn "no-lambda-arn" = "us-east-1" :=
  ⟨C7_region_extraction.1 "eu-west-1" "123:function:f" (by decide) (by decide),
   C7_region_extraction.2 "no-lambda-arn" (by decide)⟩

/-- C8: noninterference of the caller identity.  Two invocations whose
events are identical except for the values inside
`requestContext.authorizer.claims`, run against the same backend
behaviour and client state, produce identical results: the same returned
envelope (or the same uncaught error), the same backend requests, and the
same cached client.  The claims are read for logging only. -/
theorem C8_claims_noninterference (env : Env)
    (claimsA claimsB : List (String × String)) (bodyv : BodyVal) (arn : String)
    (primaryCall : PrimaryRequest → PrimaryResult)
    (secondaryCall : BedrockRequest → SecondaryResult)
    (client0 : Option BedrockClient) :
    (lambda_handler env ⟨some claimsA, bodyv⟩ arn primaryCall secondaryCall client0).res
        = (lambda_handler env ⟨some claimsB, bodyv⟩ arn primaryCall secondaryCall client0).res
    ∧ (lambda_handler env ⟨some claimsA, bodyv⟩ arn primaryCall secondaryCall client0).primaryReqs
        = (lambda_handler env ⟨some claimsB, bodyv⟩ arn primaryCall secondaryCall client0).primaryReqs
    ∧ (lambda_handler env ⟨some claimsA, bodyv⟩ arn primaryCall secondaryCall client0).secondaryReqs
        = (lambda_handler env ⟨some claimsB, bodyv⟩ arn primaryCall secondaryCall client0).secondaryReqs
    ∧ (lambda_handler env ⟨some claimsA, bodyv⟩ arn primaryCall secondaryCall client0).client
        = (lambda_handler env ⟨some claimsB, bodyv⟩ arn primaryCall secondaryCall client0).client := by
  obtain ⟨a1, b1, c1, d1⟩ := handler_auth_irrelevant env (some claimsA) bodyv arn
    primaryCall secondaryCall client0
  obtain ⟨a2, b2, c2, d2⟩ := handler_auth_irrelevant env (some claimsB) bodyv arn
    primaryCall secondaryCall client0
  exact ⟨a1.trans a2.symm, b1.trans b2.symm, c1.trans c2.symm, d1.trans d2.symm⟩

/-- C9: when the primary is healthy (2xx JSON) but `generated_text` is
absent, null or the empty string and `text` is absent, the handler does
not fall back (no Bedrock request is issued) and returns a 200 success
envelope served by the primary tier (`via = "fastapi"`) whose `response`
is the empty string. -/
theorem C9_falsy_generated_text_no_fallback (env : Env)
    (auth : Option (List (String × String))) (message : String)
    (hist? : Option (List Turn)) (arn : String)
    (primaryCall : PrimaryRequest → PrimaryResult)
    (secondaryCall : BedrockRequest → SecondaryResult)
    (client0 : Option BedrockClient) (j : PrimaryJson)
    (hurl : FASTAPI_URL env ≠ "")
    (hok : primaryCall (primaryPayload (FASTAPI_URL env) message) = .okJson j)
    (hgt : j.generated_text = none ∨ j.generated_text = some .pyNone
        ∨ j.generated_text = some (.pyStr ""))
    (htext : j.text = none) :
    (lambda_handler env ⟨auth, .obj (some message) hist?⟩ arn primaryCall secondaryCall client0).secondaryReqs
        = []
    ∧ (lambda_handler env ⟨auth, .obj (some message) hist?⟩ arn primaryCall secondaryCall client0).res
        = .ok ⟨200, corsHeaders,
            ⟨true, .pyStr "", hist?.getD [] ++ [⟨"assistant", .pyStr ""⟩], "fastapi"⟩⟩ := by
  have hrep : extractReply j = .pyStr "" := by
    rcases hgt with h | h | h <;> simp [extractReply, h, htext, PyVal.truthy]
  obtain ⟨h1, _, h3⟩ := primary_ok_run env auth message hist? arn primaryCall secondaryCall
    client0 j hurl hok
  rw [hrep] at h1
  exact ⟨h3, h1⟩

/-- C9 witness: a concrete healthy-primary run returning
`{generated_text: ""}` with no `text` field. -/
theorem C9_witness :
    (lambda_handler ⟨some "http://x", none⟩ ⟨none, .obj (some "hi") none⟩ "a"
        (fun _ => .okJson ⟨some (.pyStr ""), none⟩) (fun _ => .ok "yo") none).secondaryReqs = []
    ∧ (lambda_handler ⟨some "http://x", none⟩ ⟨none, .obj (some "hi") none⟩ "a"
        (fun _ => .okJson ⟨some (.pyStr ""), none⟩) (fun _ => .ok "yo") none).res
        = .ok ⟨200, corsHeaders, ⟨true, .pyStr "", [⟨"assistant", .pyStr ""⟩], "fastapi"⟩⟩ :=
  C9_falsy_generated_text_no_fallback ⟨some "http://x", none⟩ none "hi" none "a"
    (fun _ => .okJson ⟨some (.pyStr ""), none⟩) (fun _ => .ok "yo") none
    ⟨some (.pyStr ""), none⟩ (by decide) rfl (Or.inr (Or.inr rfl)) rfl

/-- C10: when the primary returns 2xx but its body is not valid JSON, the
`json.loads` failure is not among the caught exception types
(`URLError`, `HTTPError`, `TimeoutError`), so no fallback occurs — no
Bedrock request is issued — and the invocation terminates with the
uncaught `JSONDecodeError`, producing no response envelope. -/
theorem C10_nonjson_primary_uncaught (env : Env)
    (auth : Option (List (String × String))) (message : String)
    (hist? : Option (List Turn)) (arn : String)
    (primaryCall : PrimaryRequest → PrimaryResult)
    (secondaryCall : BedrockRequest → SecondaryResult)
    (client0 : Option BedrockClient)
    (hurl : FASTAPI_URL env ≠ "")
    (hok : primaryCall (primaryPayload (FASTAPI_URL env) message) = .okNonJson) :
    (lambda_handler env ⟨auth, .obj (some message) hist?⟩ arn primaryCall secondaryCall client0).res
        = .error .jsonDecodeError
    ∧ (lambda_handler env ⟨auth, .obj (some message) hist?⟩ arn primaryCall secondaryCall client0).secondaryReqs
        = []
    ∧ respOf (lambda_handler env ⟨auth, .obj (some message) hist?⟩ arn primaryCall secondaryCall client0)
        = none := by
  simp [lambda_handler, hurl, hok, respOf]

/-- C10 witness: a concrete run with the primary returning 2xx and a
non-JSON body. -/
theorem C10_witness :
    (lambda_handler ⟨some "http://x", none⟩ ⟨none, .obj (some "hi") none⟩ "a"
        (fun _ => .okNonJson) (fun _ => .ok "yo") none).res = .error .jsonDecodeError
    ∧ (lambda_handler ⟨some "http://x", none⟩ ⟨none, .obj (some "hi") none⟩ "a"
        (fun _ => .okNonJson) (fun _ => .ok "yo") none).secondaryReqs = []
    ∧ respOf (lambda_handler ⟨some "http://x", none⟩ ⟨none, .obj (some "hi") none⟩ "a"
        (fun _ => .okNonJson) (fun _ => .ok "yo") none) = none :=
  C10_nonjson_primary_uncaught ⟨some "http://x", none⟩ none "hi" none "a"
    (fun _ => .okNonJson) (fun _ => .ok "yo") none (by decide) rfl

end SimpleChat
